import Mathlib

/-!
Shallow embedding of examples/python-api/keycloak_auth.py: the JWT
verification and key-caching core (KeycloakAuth.verify_token and
KeycloakAuth._load_public_keys) together with the FastAPI dependencies
get_current_user and require_role, and theorems settling the
specification claims about them.
-/

/-- Opaque RSA public-key material: the value produced by
jwt.algorithms.RSAAlgorithm.from_jwk for one JWKS entry. -/
abbrev Key := String

/-- The self._public_keys dictionary: an insertion-ordered mapping from
kid to key material, modelling a Python dict. -/
abbrev KeyDict := List (String × Key)

/-- Python dict assignment d[k] = v: update in place when the key is
already present (order preserved), append otherwise. -/
def dictInsert : KeyDict → String → Key → KeyDict
  | [], k, v => [(k, v)]
  | p :: rest, k, v => if p.1 = k then (k, v) :: rest else p :: dictInsert rest k v

/-- Python membership test k in d. -/
def dictContains (d : KeyDict) (k : String) : Bool :=
  d.any (fun p => p.1 == k)

/-- Python indexing d[k], as a total lookup. -/
def dictGet : KeyDict → String → Option Key
  | [], _ => none
  | p :: rest, k => if p.1 = k then some p.2 else dictGet rest k

/-- One entry of the JWKS document returned by the certs endpoint:
either a well-formed key object carrying a kid and key material, or a
malformed entry on which indexing by kid or RSAAlgorithm.from_jwk
raises. -/
inductive JwkEntry where
  | good (kid : String) (key : Key)
  | bad
deriving Repr, DecidableEq

/-- Behaviour of one HTTP GET of the certificate endpoint. -/
inductive CertsResponse where
  /-- the request raises before _load_public_keys mutates anything:
  network error, non-2xx status (raise_for_status), or a body that is
  not JSON (so response.json raises). -/
  | fetchFailure
  /-- the body parses as JSON but carries no keys field: indexing jwks
  by keys raises KeyError, after self._public_keys has already been
  reset to the empty dict. -/
  | jsonWithoutKeys
  /-- the body parses as JSON with a keys list. -/
  | keys (entries : List JwkEntry)
deriving Repr, DecidableEq

/-- Exceptions _load_public_keys can raise; none of them is a
jwt.InvalidTokenError, so all of them propagate out of verify_token. -/
inductive LoadErr where
  | fetchError
  | missingKeysField
  | badKeyEntry
deriving Repr, DecidableEq

/-- The key-population loop of _load_public_keys, starting from the
dictionary d already written: processes entries left to right; on a
malformed entry the exception leaves the partly rebuilt dictionary. -/
def loadLoop : KeyDict → List JwkEntry → KeyDict × Except LoadErr Unit
  | d, [] => (d, Except.ok ())
  | d, JwkEntry.good kid key :: rest => loadLoop (dictInsert d kid key) rest
  | d, JwkEntry.bad :: _ => (d, Except.error LoadErr.badKeyEntry)

/-- Result of _load_public_keys: either the cache was replaced by a
fully rebuilt dictionary, or an exception was raised leaving the cache
in the recorded state. -/
inductive LoadOutcome where
  | replaced (d : KeyDict)
  | raised (st : Option KeyDict) (e : LoadErr)
deriving Repr, DecidableEq

/-- KeycloakAuth._load_public_keys (keycloak_auth.py lines 165-174):
GET the certs endpoint, raise_for_status, parse the JSON body, then
reset self._public_keys to the empty dict and repopulate it entry by
entry from the keys list. -/
def load_public_keys (old : Option KeyDict) (resp : CertsResponse) : LoadOutcome :=
  match resp with
  | CertsResponse.fetchFailure => LoadOutcome.raised old LoadErr.fetchError
  | CertsResponse.jsonWithoutKeys => LoadOutcome.raised (some []) LoadErr.missingKeysField
  | CertsResponse.keys entries =>
    match loadLoop [] entries with
    | (d, Except.ok ()) => LoadOutcome.replaced d
    | (d, Except.error e) => LoadOutcome.raised (some d) e

/-- The value of self._public_keys after _load_public_keys returns or
raises. -/
def loadFinalState (old : Option KeyDict) (resp : CertsResponse) : Option KeyDict :=
  match load_public_keys old resp with
  | LoadOutcome.replaced d => some d
  | LoadOutcome.raised st _ => st

/-- The successive values of the shared self._public_keys attribute
observable while the population loop of _load_public_keys rebuilds it:
the freshly written dict and its value after each loop iteration. -/
def loadLoopStates : KeyDict → List JwkEntry → List (Option KeyDict)
  | d, [] => [some d]
  | d, JwkEntry.good kid key :: rest => some d :: loadLoopStates (dictInsert d kid key) rest
  | d, JwkEntry.bad :: _ => [some d]

/-- All values of self._public_keys observable by a concurrent reader
from just before _load_public_keys starts to just after it finishes. -/
def loadStates (old : Option KeyDict) (resp : CertsResponse) : List (Option KeyDict) :=
  match resp with
  | CertsResponse.fetchFailure => [old]
  | CertsResponse.jsonWithoutKeys => [old, some []]
  | CertsResponse.keys entries => old :: loadLoopStates [] entries

/-- The kids carried by the well-formed entries of a JWKS keys list. -/
def entryKids : List JwkEntry → List String
  | [] => []
  | JwkEntry.good kid _ :: rest => kid :: entryKids rest
  | JwkEntry.bad :: rest => entryKids rest

/-- The nested realm_access claim object. -/
structure RealmAccess where
  roles : Option (List String) := none
deriving Repr, DecidableEq

/-- A decoded JWT payload, a Python dict of claims. The fields the code
inspects are explicit; other carries the remaining claims. -/
structure ClaimSet where
  aud : Option (List String) := none
  iss : Option String := none
  exp : Option Nat := none
  realm_access : Option RealmAccess := none
  other : List (String × String) := []
deriving Repr, DecidableEq

/-- Python truthiness of the payload dict: the test of line 201 treats
the payload as falsy exactly when every claim is absent. -/
def claimSetIsEmpty (c : ClaimSet) : Bool :=
  c.aud.isNone && c.iss.isNone && c.exp.isNone && c.realm_access.isNone && c.other.isEmpty

/-- A presented JWT. wellFormed is whether jwt.get_unverified_header and
the structural decode succeed; kid and alg are the header fields; sig is
the public key under which the RS256 signature verifies (none means the
signature verifies under no key at all). -/
structure Token where
  wellFormed : Bool := true
  kid : Option String := none
  alg : String := "RS256"
  payload : ClaimSet := {}
  sig : Option Key := none
deriving Repr, DecidableEq

/-- Verifier configuration: self.client_id and self.base_url. -/
structure Auth where
  client_id : String
  base_url : String
deriving Repr, DecidableEq

/-- Audience validation performed by jwt.decode with an audience
argument: the aud claim must be present and contain the configured
client id (a missing aud claim raises MissingRequiredClaimError). -/
def audienceOk (p : ClaimSet) (client_id : String) : Bool :=
  match p.aud with
  | none => false
  | some auds => auds.contains client_id

/-- Issuer validation performed by jwt.decode with an issuer argument:
the iss claim must be present and equal the configured URL exactly. -/
def issuerOk (p : ClaimSet) (base_url : String) : Bool :=
  match p.iss with
  | none => false
  | some iss => iss == base_url

/-- Expiry validation performed by jwt.decode: PyJWT raises
ExpiredSignatureError when an exp claim is present and exp is at or
before the current time (zero leeway), i.e. a present expiry must lie
strictly in the future; a token without an exp claim is not checked. -/
def expOk (p : ClaimSet) (now : Nat) : Bool :=
  match p.exp with
  | none => true
  | some e => decide (now < e)

/-- jwt.decode from verify_token lines 152-158: structural decode,
algorithm restriction to RS256, signature verification against the
resolved key, then claim validation; any jwt.InvalidTokenError is caught
by verify_token and becomes a None result. -/
def jwtDecode (auth : Auth) (now : Nat) (t : Token) (key : Key) : Option ClaimSet :=
  if t.wellFormed = true ∧ t.alg = "RS256" ∧ t.sig = some key
      ∧ audienceOk t.payload auth.client_id = true
      ∧ issuerOk t.payload auth.base_url = true
      ∧ expOk t.payload now = true
  then some t.payload
  else none

/-- The kid-to-key resolution of verify_token lines 142-151: a header
without a kid entry is never found, since None is not a dict key. -/
def lookupKid (d : KeyDict) : Option String → Option Key
  | none => none
  | some kid => dictGet d kid

/-- Lines 140-160 of verify_token, entered with the cache holding the
dict d and n fetches already performed during this call: decode the
header, resolve the kid, refreshing once via rNext on a miss, and
decode. Returns the final cache, the total fetch count, and the
outcome: ok none models returning None, error models a load exception
propagating out of verify_token. -/
def verifyCore (auth : Auth) (now : Nat) (d : KeyDict) (n : Nat)
    (rNext : CertsResponse) (t : Token) :
    Option KeyDict × Nat × Except LoadErr (Option ClaimSet) :=
  if t.wellFormed = false then (some d, n, Except.ok none)
  else
    match lookupKid d t.kid with
    | some key => (some d, n, Except.ok (jwtDecode auth now t key))
    | none =>
      match load_public_keys (some d) rNext with
      | LoadOutcome.raised st e => (st, n + 1, Except.error e)
      | LoadOutcome.replaced d2 =>
        match lookupKid d2 t.kid with
        | some key => (some d2, n + 1, Except.ok (jwtDecode auth now t key))
        | none => (some d2, n + 1, Except.ok none)

/-- Continuation of verify_token after the initial load performed on a
falsy cache by lines 137-138. -/
def verifyAfterInit (auth : Auth) (now : Nat) (lo : LoadOutcome)
    (r2 : CertsResponse) (t : Token) :
    Option KeyDict × Nat × Except LoadErr (Option ClaimSet) :=
  match lo with
  | LoadOutcome.raised st e => (st, 1, Except.error e)
  | LoadOutcome.replaced d => verifyCore auth now d 1 r2 t

/-- KeycloakAuth.verify_token (lines 125-163). st0 is self._public_keys
on entry (None before the first load; an empty dict is falsy and also
triggers the initial load); r1 answers the first GET of the certs
endpoint made during this call, r2 a second GET, of which at most two
occur. -/
def verify_token (auth : Auth) (now : Nat) (st0 : Option KeyDict)
    (r1 r2 : CertsResponse) (t : Token) :
    Option KeyDict × Nat × Except LoadErr (Option ClaimSet) :=
  match st0 with
  | none => verifyAfterInit auth now (load_public_keys none r1) r2 t
  | some d =>
    if d.isEmpty then verifyAfterInit auth now (load_public_keys (some d) r1) r2 t
    else verifyCore auth now d 0 r1 t

/-- fastapi.HTTPException as raised by this module: status, detail, and
the optional WWW-Authenticate header value. -/
structure HTTPException where
  status_code : Nat
  detail : String
  wwwAuthenticate : Option String := none
deriving Repr, DecidableEq

/-- The 401 raised by get_current_user lines 202-206. -/
def invalidTokenExc : HTTPException :=
  { status_code := 401, detail := "Invalid or expired token",
    wwwAuthenticate := some "Bearer" }

/-- Lines 198-208 of get_current_user, given the value returned by
verify_token: the truthiness test of line 201 rejects both None and a
falsy (empty) dict with the generic 401; otherwise the payload is
returned unchanged. -/
def currentUserFromPayload : Option ClaimSet → Except HTTPException ClaimSet
  | none => Except.error invalidTokenExc
  | some c => if claimSetIsEmpty c then Except.error invalidTokenExc else Except.ok c

/-- get_current_user (lines 185-208): verify the bearer token and map
the outcome; load exceptions propagate. -/
def get_current_user (auth : Auth) (now : Nat) (st0 : Option KeyDict)
    (r1 r2 : CertsResponse) (t : Token) :
    Option KeyDict × Nat × Except LoadErr (Except HTTPException ClaimSet) :=
  match verify_token auth now st0 r1 r2 t with
  | (st, n, Except.error e) => (st, n, Except.error e)
  | (st, n, Except.ok payload) => (st, n, Except.ok (currentUserFromPayload payload))

/-- The role-list extraction of check_role (line 222): a missing
realm_access entry or a missing roles entry both yield the empty list. -/
def userRoles (current_user : ClaimSet) : List String :=
  match current_user.realm_access with
  | none => []
  | some ra =>
    match ra.roles with
    | none => []
    | some roles => roles

/-- check_role, the dependency built by require_role (lines 221-231). -/
def check_role (required_role : String) (current_user : ClaimSet) :
    Except HTTPException ClaimSet :=
  if (userRoles current_user).contains required_role = false then
    Except.error { status_code := 403,
                   detail := "Required role '" ++ required_role ++ "' not found" }
  else Except.ok current_user

/-- require_role (lines 211-232): the dependency factory. -/
def require_role (required_role : String) : ClaimSet → Except HTTPException ClaimSet :=
  check_role required_role

/-- The default configuration of the module: client id 3dgs-api-service
and the base URL obtained by urljoin from the default server URL and
realm name. -/
def auth0 : Auth :=
  { client_id := "3dgs-api-service",
    base_url := "http://localhost:8080/realms/caretwin/" }

/-- A payload satisfying every validated claim for auth0 at time 5. -/
def goodPayload : ClaimSet :=
  { aud := some ["3dgs-api-service"],
    iss := some "http://localhost:8080/realms/caretwin/",
    exp := some 2000,
    realm_access := some { roles := some ["admin", "api_user"] },
    other := [("sub", "user-42")] }

/-- A token signed with the key stored under kid k1. -/
def goodToken : Token :=
  { wellFormed := true, kid := some "k1", alg := "RS256",
    payload := goodPayload, sig := some "K1" }

/-- The same token except that its audience names another service. -/
def badAudToken : Token :=
  { goodToken with payload := { goodPayload with aud := some ["other-service"] } }

/-- The same token but carrying an unknown kid. -/
def tokenKidK2 : Token := { goodToken with kid := some "k2" }

/-- The same token but with no kid entry in its header. -/
def tokenNoKid : Token := { goodToken with kid := none }

/-- A warm one-key cache. -/
def cacheK1 : KeyDict := [("k1", "K1")]

/-- A provider response serving exactly the key k1. -/
def respK1 : CertsResponse := CertsResponse.keys [JwkEntry.good "k1" "K1"]

/-- The empty payload dict. -/
def emptyClaims : ClaimSet := {}

/-- A claim set with no realm_access entry at all. -/
def claimsNoRealmAccess : ClaimSet := { other := [("sub", "u1")] }

/-- A claim set whose realm_access entry lacks a roles entry. -/
def claimsRolesMissing : ClaimSet :=
  { realm_access := some { roles := none }, other := [("sub", "u1")] }

/-- An authenticated claim set whose role list lacks admin. -/
def claimsViewerOnly : ClaimSet :=
  { goodPayload with realm_access := some { roles := some ["viewer"] } }

theorem dictGet_eq_none {d : KeyDict} {k : String} :
    dictGet d k = none ↔ dictContains d k = false := by
  induction d with
  | nil => simp [dictGet, dictContains]
  | cons p rest ih =>
    by_cases h : p.1 = k <;> simp [dictGet, dictContains, h, ih]

theorem dictContains_insert {d : KeyDict} {k : String} {v : Key} {k1 : String} :
    dictContains (dictInsert d k v) k1 = true ↔ (k1 = k ∨ dictContains d k1 = true) := by
  induction d with
  | nil =>
    simp only [dictInsert, dictContains, List.any_cons, List.any_nil,
      Bool.or_false, beq_iff_eq]
    constructor
    · exact fun h => Or.inl h.symm
    · rintro (h | h)
      · exact h.symm
      · exact absurd h (by simp)
  | cons p rest ih =>
    by_cases h : p.1 = k
    · have hins : dictInsert (p :: rest) k v = (k, v) :: rest := by
        simp [dictInsert, h]
      rw [hins]
      simp only [dictContains, List.any_cons, Bool.or_eq_true, beq_iff_eq, h]
      constructor
      · exact fun hh => Or.inr hh
      · rintro (hh | hh)
        · exact Or.inl hh.symm
        · exact hh
    · have hins : dictInsert (p :: rest) k v = p :: dictInsert rest k v := by
        simp [dictInsert, h]
      rw [hins]
      simp only [dictContains, List.any_cons, Bool.or_eq_true, beq_iff_eq] at ih ⊢
      rw [ih]
      tauto

theorem loadLoop_contains (entries : List JwkEntry) :
    ∀ (acc : KeyDict) (k : String), (loadLoop acc entries).2 = Except.ok () →
    (dictContains (loadLoop acc entries).1 k = true ↔
      (dictContains acc k = true ∨ k ∈ entryKids entries)) := by
  induction entries with
  | nil => intro acc k _; simp [loadLoop, entryKids]
  | cons e rest ih =>
    intro acc k h
    cases e with
    | bad => simp [loadLoop] at h
    | good kid key =>
      have h2 := ih (dictInsert acc kid key) k h
      show dictContains (loadLoop (dictInsert acc kid key) rest).1 k = true ↔ _
      rw [h2, dictContains_insert]
      simp only [entryKids, List.mem_cons]
      by_cases hk : k = kid <;> simp [hk]

theorem loadLoopStates_ne_nil (acc : KeyDict) (entries : List JwkEntry) :
    loadLoopStates acc entries ≠ [] := by
  cases entries with
  | nil => simp [loadLoopStates]
  | cons e rest => cases e <;> simp [loadLoopStates]

theorem loadLoopStates_getLast (entries : List JwkEntry) :
    ∀ acc : KeyDict,
      (loadLoopStates acc entries).getLast? = some (some (loadLoop acc entries).1) := by
  induction entries with
  | nil => intro acc; simp [loadLoopStates, loadLoop]
  | cons e rest ih =>
    intro acc
    cases e with
    | bad => simp [loadLoopStates, loadLoop]
    | good kid key =>
      have h := ih (dictInsert acc kid key)
      have hne := loadLoopStates_ne_nil (dictInsert acc kid key) rest
      show (some acc :: loadLoopStates (dictInsert acc kid key) rest).getLast?
        = some (some (loadLoop (dictInsert acc kid key) rest).1)
      cases hS : loadLoopStates (dictInsert acc kid key) rest with
      | nil => exact absurd hS hne
      | cons x xs =>
        rw [hS] at h
        rw [List.getLast?_cons_cons, h]

theorem jwtDecode_eq_some {auth : Auth} {now : Nat} {t : Token} {key : Key} {p : ClaimSet}
    (h : jwtDecode auth now t key = some p) :
    p = t.payload ∧ t.wellFormed = true ∧ t.alg = "RS256" ∧ t.sig = some key
      ∧ audienceOk t.payload auth.client_id = true
      ∧ issuerOk t.payload auth.base_url = true
      ∧ expOk t.payload now = true := by
  unfold jwtDecode at h
  split at h
  · rename_i hc
    injection h with h1
    exact ⟨h1.symm, hc.1, hc.2.1, hc.2.2.1, hc.2.2.2.1, hc.2.2.2.2.1, hc.2.2.2.2.2⟩
  · exact Option.noConfusion h

theorem lookupKid_eq_some {d : KeyDict} {kidOpt : Option String} {key : Key}
    (h : lookupKid d kidOpt = some key) :
    ∃ kid, kidOpt = some kid ∧ dictGet d kid = some key := by
  cases kidOpt with
  | none => exact Option.noConfusion h
  | some kid => exact ⟨kid, rfl, h⟩

theorem verifyCore_ok_some {auth : Auth} {now : Nat} {d : KeyDict} {n : Nat}
    {rN : CertsResponse} {t : Token} {st1 : Option KeyDict} {m : Nat} {p : ClaimSet}
    (h : verifyCore auth now d n rN t = (st1, m, Except.ok (some p))) :
    ∃ dF kid key, st1 = some dF ∧ t.kid = some kid ∧ dictGet dF kid = some key
      ∧ jwtDecode auth now t key = some p := by
  unfold verifyCore at h
  split at h
  · simp at h
  · split at h
    · rename_i key hL
      obtain ⟨kid, hk, hg⟩ := lookupKid_eq_some hL
      simp only [Prod.mk.injEq, Except.ok.injEq] at h
      exact ⟨d, kid, key, h.1.symm, hk, hg, h.2.2⟩
    · split at h
      · simp at h
      · split at h
        · rename_i hL2
          obtain ⟨kid, hk, hg⟩ := lookupKid_eq_some hL2
          simp only [Prod.mk.injEq, Except.ok.injEq] at h
          exact ⟨_, kid, _, h.1.symm, hk, hg, h.2.2⟩
        · simp at h

theorem verify_token_ok_some {auth : Auth} {now : Nat} {st0 : Option KeyDict}
    {r1 r2 : CertsResponse} {t : Token} {st1 : Option KeyDict} {n : Nat} {p : ClaimSet}
    (h : verify_token auth now st0 r1 r2 t = (st1, n, Except.ok (some p))) :
    ∃ dF kid key, st1 = some dF ∧ t.kid = some kid ∧ dictGet dF kid = some key
      ∧ jwtDecode auth now t key = some p := by
  unfold verify_token at h
  split at h
  · unfold verifyAfterInit at h
    split at h
    · simp at h
    · exact verifyCore_ok_some h
  · split at h
    · unfold verifyAfterInit at h
      split at h
      · simp at h
      · exact verifyCore_ok_some h
    · exact verifyCore_ok_some h

theorem verifyCore_miss_fetches (auth : Auth) (now : Nat) (d : KeyDict) (n : Nat)
    (rN : CertsResponse) (t : Token) (hwf : t.wellFormed = true)
    (hmiss : lookupKid d t.kid = none) :
    (verifyCore auth now d n rN t).2.1 = n + 1 := by
  unfold verifyCore
  simp only [hwf, hmiss]
  rcases hl : load_public_keys (some d) rN with d2 | ⟨st, e⟩
  · rcases hl2 : lookupKid d2 t.kid with _ | key <;> simp [hl2]
  · simp

theorem verifyCore_noKid (auth : Auth) (now : Nat) (d : KeyDict) (n : Nat)
    (rN : CertsResponse) (t : Token) (hwf : t.wellFormed = true) (hkid : t.kid = none) :
    (verifyCore auth now d n rN t).2.1 = n + 1
    ∧ ∀ p, (verifyCore auth now d n rN t).2.2 ≠ Except.ok (some p) := by
  have hmiss : ∀ dx : KeyDict, lookupKid dx t.kid = none := by
    intro dx; rw [hkid]; rfl
  unfold verifyCore
  simp only [hwf, hmiss]
  rcases hl : load_public_keys (some d) rN with d2 | ⟨st, e⟩ <;> simp

theorem verifyCore_unknown (auth : Auth) (now : Nat) (d : KeyDict) (n : Nat)
    (rN : CertsResponse) (t : Token) (d2 : KeyDict)
    (hwf : t.wellFormed = true) (hmiss : lookupKid d t.kid = none)
    (hload : load_public_keys (some d) rN = LoadOutcome.replaced d2)
    (hmiss2 : lookupKid d2 t.kid = none) :
    verifyCore auth now d n rN t = (some d2, n + 1, Except.ok none) := by
  simp [verifyCore, hwf, hmiss, hload, hmiss2]

theorem verify_token_warm (auth : Auth) (now : Nat) (d : KeyDict)
    (r1 r2 : CertsResponse) (t : Token) (hne : d.isEmpty = false) :
    verify_token auth now (some d) r1 r2 t = verifyCore auth now d 0 r1 t := by
  simp [verify_token, hne]

theorem load_public_keys_keys_ok (old : Option KeyDict) (entries : List JwkEntry)
    (hok : (loadLoop [] entries).2 = Except.ok ()) :
    load_public_keys old (CertsResponse.keys entries)
      = LoadOutcome.replaced (loadLoop [] entries).1 := by
  unfold load_public_keys
  cases hl : loadLoop [] entries with
  | mk d r =>
    rw [hl] at hok
    cases r with
    | ok u => cases u; simp [hl]
    | error e => exact absurd hok (by simp)

theorem loadFinalState_keys (old : Option KeyDict) (entries : List JwkEntry) :
    loadFinalState old (CertsResponse.keys entries) = some (loadLoop [] entries).1 := by
  unfold loadFinalState load_public_keys
  cases hl : loadLoop [] entries with
  | mk d r =>
    cases r with
    | ok u => cases u; simp [hl]
    | error e => simp [hl]

theorem getLast?_cons_of_ne_nil {α : Type} (x : α) {l : List α} (h : l ≠ []) :
    (x :: l).getLast? = l.getLast? := by
  cases l with
  | nil => exact absurd rfl h
  | cons y ys => exact List.getLast?_cons_cons

/-- C1: verify_token returns a decoded payload only if the token is well
formed, its RS256 signature verifies under a key present in the cache at
return time, its audience claim contains the configured client id, its
issuer claim equals the configured base URL exactly, and any expiry
claim lies strictly in the future at verification time; in particular a
token whose audience does not contain the client id is never accepted,
however valid its signature. -/
theorem spec_C1_verify_requires_all_checks :
    (∀ (auth : Auth) (now : Nat) (st0 : Option KeyDict) (r1 r2 : CertsResponse)
        (t : Token) (st1 : Option KeyDict) (n : Nat) (p : ClaimSet),
      verify_token auth now st0 r1 r2 t = (st1, n, Except.ok (some p)) →
      p = t.payload ∧ t.wellFormed = true ∧ t.alg = "RS256"
        ∧ (∃ dF kid key, st1 = some dF ∧ t.kid = some kid
             ∧ dictGet dF kid = some key ∧ t.sig = some key)
        ∧ audienceOk t.payload auth.client_id = true
        ∧ issuerOk t.payload auth.base_url = true
        ∧ (∀ e, t.payload.exp = some e → now < e))
    ∧ (∀ (auth : Auth) (now : Nat) (st0 : Option KeyDict) (r1 r2 : CertsResponse)
        (t : Token) (st1 : Option KeyDict) (n : Nat) (p : ClaimSet),
      audienceOk t.payload auth.client_id = false →
      verify_token auth now st0 r1 r2 t ≠ (st1, n, Except.ok (some p))) := by
  constructor
  · intro auth now st0 r1 r2 t st1 n p h
    obtain ⟨dF, kid, key, hst, hkid, hget, hdec⟩ := verify_token_ok_some h
    obtain ⟨hp, hwf, halg, hsig, haud, hiss, hexp⟩ := jwtDecode_eq_some hdec
    refine ⟨hp, hwf, halg, ⟨dF, kid, key, hst, hkid, hget, hsig⟩, haud, hiss, ?_⟩
    intro e he
    unfold expOk at hexp
    rw [he] at hexp
    exact of_decide_eq_true hexp
  · intro auth now st0 r1 r2 t st1 n p hbad h
    obtain ⟨dF, kid, key, hst, hkid, hget, hdec⟩ := verify_token_ok_some h
    obtain ⟨hp, hwf, halg, hsig, haud, hiss, hexp⟩ := jwtDecode_eq_some hdec
    rw [hbad] at haud
    exact Bool.noConfusion haud

/-- Witness for C1: the theorem applied at the default configuration, a
warm cache holding k1 and a fully valid token; and the same token with a
foreign audience, never accepted. -/
theorem spec_C1_witness :
    (goodToken.payload = goodToken.payload ∧ goodToken.wellFormed = true
      ∧ goodToken.alg = "RS256"
      ∧ (∃ dF kid key, some cacheK1 = some dF ∧ goodToken.kid = some kid
           ∧ dictGet dF kid = some key ∧ goodToken.sig = some key)
      ∧ audienceOk goodToken.payload auth0.client_id = true
      ∧ issuerOk goodToken.payload auth0.base_url = true
      ∧ (∀ e, goodToken.payload.exp = some e → 5 < e))
    ∧ verify_token auth0 5 (some cacheK1) respK1 respK1 badAudToken
        ≠ (some cacheK1, 0, Except.ok (some badAudToken.payload)) := by
  constructor
  · exact spec_C1_verify_requires_all_checks.1 auth0 5 (some cacheK1) respK1 respK1
      goodToken (some cacheK1) 0 goodToken.payload rfl
  · exact spec_C1_verify_requires_all_checks.2 auth0 5 (some cacheK1) respK1 respK1
      badAudToken (some cacheK1) 0 badAudToken.payload rfl

/-- C2 counterexample: a malformed certificate response, namely a body
that parses as JSON but has no keys field, surfaces a refresh failure
yet does not leave the previously cached mapping unchanged: the cache
has been reset to the empty dict by the time the error is raised. -/
theorem spec_C2_counterexample :
    load_public_keys (some cacheK1) CertsResponse.jsonWithoutKeys
        = LoadOutcome.raised (some []) LoadErr.missingKeysField
    ∧ loadFinalState (some cacheK1) CertsResponse.jsonWithoutKeys ≠ some cacheK1 :=
  ⟨rfl, by decide⟩

/-- C2 amended: a refresh failure raised before the body is parsed
(network error, non-2xx status, non-JSON body) surfaces the error and
leaves the cached mapping unchanged; but a body that parses as JSON
without a keys field clears the cache to the empty dict, and a
malformed key entry aborts the rebuild midway leaving a partly
repopulated dict, before the error propagates to the caller. -/
theorem spec_C2_amended_failure_semantics (st : Option KeyDict) :
    load_public_keys st CertsResponse.fetchFailure
        = LoadOutcome.raised st LoadErr.fetchError
    ∧ load_public_keys st CertsResponse.jsonWithoutKeys
        = LoadOutcome.raised (some []) LoadErr.missingKeysField
    ∧ load_public_keys st (CertsResponse.keys [JwkEntry.good "k2" "K2", JwkEntry.bad])
        = LoadOutcome.raised (some [("k2", "K2")]) LoadErr.badKeyEntry :=
  ⟨rfl, rfl, rfl⟩

/-- C3 counterexample: on a cold (uninitialized) cache, a verification
of a token whose kid the provider does not serve performs two fetches
of the certificate endpoint, not exactly one, before the final
rejection. -/
theorem spec_C3_counterexample :
    (verify_token auth0 5 none respK1 respK1 tokenKidK2).2.1 = 2
    ∧ (verify_token auth0 5 none respK1 respK1 tokenKidK2).2.2 = Except.ok none :=
  ⟨rfl, rfl⟩

/-- C3 amended: against a non-empty cache, a verification whose kid
misses the cache performs exactly one fetch before the outcome, and one
whose kid is present performs zero fetches and leaves the cache
unchanged (hence a repeat verification of an already fetched kid also
performs zero fetches); on an empty or uninitialized cache an initial
load precedes the lookup, so a kid absent from the provider key set
costs two fetches in a single call. -/
theorem spec_C3_amended_fetch_counts (auth : Auth) (now : Nat) (d : KeyDict)
    (r1 r2 : CertsResponse) (t : Token)
    (hne : d.isEmpty = false) (hwf : t.wellFormed = true) :
    (lookupKid d t.kid = none → (verify_token auth now (some d) r1 r2 t).2.1 = 1)
    ∧ (∀ key, lookupKid d t.kid = some key →
        verify_token auth now (some d) r1 r2 t
          = (some d, 0, Except.ok (jwtDecode auth now t key))) := by
  constructor
  · intro hmiss
    rw [verify_token_warm auth now d r1 r2 t hne]
    exact verifyCore_miss_fetches auth now d 0 r1 t hwf hmiss
  · intro key hkey
    rw [verify_token_warm auth now d r1 r2 t hne]
    simp [verifyCore, hwf, hkey]

/-- Witness for C3 amended: one fetch for a missing kid against the warm
one-key cache, zero fetches and an unchanged cache for a present kid. -/
theorem spec_C3_witness :
    (verify_token auth0 5 (some cacheK1) respK1 respK1 tokenKidK2).2.1 = 1
    ∧ verify_token auth0 5 (some cacheK1) respK1 respK1 goodToken
        = (some cacheK1, 0, Except.ok (jwtDecode auth0 5 goodToken "K1")) := by
  constructor
  · exact (spec_C3_amended_fetch_counts auth0 5 cacheK1 respK1 respK1 tokenKidK2
      rfl rfl).1 rfl
  · exact (spec_C3_amended_fetch_counts auth0 5 cacheK1 respK1 respK1 goodToken
      rfl rfl).2 "K1" rfl

/-- C4: a successful refresh replaces the cached mapping with exactly
the keys of the newest fetch, independent of whatever was cached before,
and a token whose kid is absent from the newly fetched set is rejected
by a subsequent verification even while the provider keeps serving that
same set. -/
theorem spec_C4_rotation_replaces_cache (auth : Auth) (now : Nat)
    (old : Option KeyDict) (entries : List JwkEntry) (t : Token) (kid : String)
    (hok : (loadLoop [] entries).2 = Except.ok ())
    (hkid : t.kid = some kid) (habs : kid ∉ entryKids entries)
    (hwf : t.wellFormed = true) :
    load_public_keys old (CertsResponse.keys entries)
        = LoadOutcome.replaced (loadLoop [] entries).1
    ∧ (∀ k, dictContains (loadLoop [] entries).1 k = true ↔ k ∈ entryKids entries)
    ∧ (verify_token auth now (some (loadLoop [] entries).1)
         (CertsResponse.keys entries) (CertsResponse.keys entries) t).2.2
        = Except.ok none := by
  have hmem : ∀ k, dictContains (loadLoop [] entries).1 k = true ↔ k ∈ entryKids entries := by
    intro k
    rw [loadLoop_contains entries [] k hok]
    simp [dictContains]
  have hnc : dictContains (loadLoop [] entries).1 kid = false := by
    cases hc : dictContains (loadLoop [] entries).1 kid
    · rfl
    · exact absurd ((hmem kid).1 hc) habs
  have hmiss : lookupKid (loadLoop [] entries).1 t.kid = none := by
    rw [hkid]
    show dictGet (loadLoop [] entries).1 kid = none
    exact dictGet_eq_none.2 hnc
  have hload : ∀ o, load_public_keys o (CertsResponse.keys entries)
      = LoadOutcome.replaced (loadLoop [] entries).1 := fun o =>
    load_public_keys_keys_ok o entries hok
  refine ⟨hload old, hmem, ?_⟩
  by_cases hE : (loadLoop [] entries).1.isEmpty
  · have : verify_token auth now (some (loadLoop [] entries).1)
        (CertsResponse.keys entries) (CertsResponse.keys entries) t
        = verifyAfterInit auth now (load_public_keys (some (loadLoop [] entries).1)
            (CertsResponse.keys entries)) (CertsResponse.keys entries) t := by
      simp [verify_token, hE]
    rw [this, hload, verifyAfterInit,
      verifyCore_unknown auth now (loadLoop [] entries).1 1 (CertsResponse.keys entries)
        t (loadLoop [] entries).1 hwf hmiss (hload _) hmiss]
  · rw [verify_token_warm auth now (loadLoop [] entries).1
        (CertsResponse.keys entries) (CertsResponse.keys entries) t
        (Bool.eq_false_iff.2 hE),
      verifyCore_unknown auth now (loadLoop [] entries).1 0 (CertsResponse.keys entries)
        t (loadLoop [] entries).1 hwf hmiss (hload _) hmiss]

/-- Witness for C4: the provider rotates from the k1 cache to a key set
holding only k2; the cache afterwards holds exactly k2 and the old
token signed under k1 is rejected. -/
theorem spec_C4_witness :
    load_public_keys (some cacheK1) (CertsResponse.keys [JwkEntry.good "k2" "K2"])
        = LoadOutcome.replaced (loadLoop [] [JwkEntry.good "k2" "K2"]).1
    ∧ (∀ k, dictContains (loadLoop [] [JwkEntry.good "k2" "K2"]).1 k = true
          ↔ k ∈ entryKids [JwkEntry.good "k2" "K2"])
    ∧ (verify_token auth0 5 (some (loadLoop [] [JwkEntry.good "k2" "K2"]).1)
         (CertsResponse.keys [JwkEntry.good "k2" "K2"])
         (CertsResponse.keys [JwkEntry.good "k2" "K2"]) goodToken).2.2
        = Except.ok none :=
  spec_C4_rotation_replaces_cache auth0 5 (some cacheK1) [JwkEntry.good "k2" "K2"]
    goodToken "k1" rfl rfl (by decide) rfl

/-- C5: whenever verify_token returns None, whatever the internal
failure reason (malformed token, missing or unknown key, bad signature,
rejected claim), get_current_user raises exactly the generic 401 with
detail Invalid or expired token and a WWW-Authenticate Bearer header,
exposing no internal reason. -/
theorem spec_C5_uniform_401 (auth : Auth) (now : Nat) (st0 : Option KeyDict)
    (r1 r2 : CertsResponse) (t : Token) (st1 : Option KeyDict) (n : Nat)
    (h : verify_token auth now st0 r1 r2 t = (st1, n, Except.ok none)) :
    get_current_user auth now st0 r1 r2 t
      = (st1, n, Except.ok (Except.error
          { status_code := 401, detail := "Invalid or expired token",
            wwwAuthenticate := some "Bearer" })) := by
  simp [get_current_user, h, currentUserFromPayload, invalidTokenExc]

/-- Witness for C5: a token whose audience names another service is
rejected by verification, and the request fails with the generic 401. -/
theorem spec_C5_witness :
    get_current_user auth0 5 (some cacheK1) respK1 respK1 badAudToken
      = (some cacheK1, 0, Except.ok (Except.error
          { status_code := 401, detail := "Invalid or expired token",
            wwwAuthenticate := some "Bearer" })) :=
  spec_C5_uniform_401 auth0 5 (some cacheK1) respK1 respK1 badAudToken
    (some cacheK1) 0 rfl

/-- C6: the dependency produced by require_role rejects an
authenticated claim set lacking the required role with a 403 naming
that role, and forwards a claim set containing it unchanged to the
handler. -/
theorem spec_C6_role_gate (r : String) (u : ClaimSet) :
    ((userRoles u).contains r = false →
       require_role r u = Except.error
         { status_code := 403,
           detail := "Required role '" ++ r ++ "' not found",
           wwwAuthenticate := none })
    ∧ ((userRoles u).contains r = true → require_role r u = Except.ok u) := by
  constructor <;> intro h <;>
    · unfold require_role check_role
      rw [h]
      simp

/-- Witness for C6: the admin role gate forwards the admin-bearing
claim set unchanged and rejects the viewer-only claim set with the 403
naming admin. -/
theorem spec_C6_witness :
    require_role "admin" goodPayload = Except.ok goodPayload
    ∧ require_role "admin" claimsViewerOnly = Except.error
        { status_code := 403,
          detail := "Required role '" ++ "admin" ++ "' not found",
          wwwAuthenticate := none } :=
  ⟨(spec_C6_role_gate "admin" goodPayload).2 rfl,
   (spec_C6_role_gate "admin" claimsViewerOnly).1 rfl⟩

/-- C7 counterexample: with a warm non-empty cache, a well-formed token
without a kid header entry is rejected only after one refresh fetch of
the certificate endpoint, not at header extraction before any refresh
as the claim states. -/
theorem spec_C7_counterexample :
    (verify_token auth0 5 (some cacheK1) respK1 respK1 tokenNoKid).2.1 = 1
    ∧ (verify_token auth0 5 (some cacheK1) respK1 respK1 tokenNoKid).2.2
        = Except.ok none :=
  ⟨rfl, rfl⟩

/-- C7 amended: a well-formed token without a kid is always rejected and
never yields a payload, but the missing key id is handled through the
unknown-key path rather than at header extraction: with a non-empty
cache exactly one refresh fetch is performed before the rejection. -/
theorem spec_C7_amended_missing_kid (auth : Auth) (now : Nat) (d : KeyDict)
    (r1 r2 : CertsResponse) (t : Token)
    (hne : d.isEmpty = false) (hwf : t.wellFormed = true) (hkid : t.kid = none) :
    (verify_token auth now (some d) r1 r2 t).2.1 = 1
    ∧ ∀ p, (verify_token auth now (some d) r1 r2 t).2.2 ≠ Except.ok (some p) := by
  rw [verify_token_warm auth now d r1 r2 t hne]
  have h := verifyCore_noKid auth now d 0 r1 t hwf hkid
  exact h

/-- Witness for C7 amended: the kid-less token against the warm k1
cache performs exactly one fetch. -/
theorem spec_C7_witness :
    (verify_token auth0 7 (some cacheK1) respK1 respK1 tokenNoKid).2.1 = 1 :=
  (spec_C7_amended_missing_kid auth0 7 cacheK1 respK1 respK1 tokenNoKid rfl rfl rfl).1

/-- C8 counterexample: while a refresh replaces the one-key cache k1 by
the one-key set k2, the shared mapping passes through the empty dict, a
state that is neither the fully-old nor the fully-new mapping, so a
reader overlapping the refresh can observe a partially-updated mapping. -/
theorem spec_C8_counterexample :
    some ([] : KeyDict)
        ∈ loadStates (some cacheK1) (CertsResponse.keys [JwkEntry.good "k2" "K2"])
    ∧ some ([] : KeyDict) ≠ some cacheK1
    ∧ some ([] : KeyDict)
        ≠ loadFinalState (some cacheK1) (CertsResponse.keys [JwkEntry.good "k2" "K2"]) :=
  ⟨by decide, by decide, by decide⟩

/-- C8 amended: the refresh is not an atomic swap; the sequence of cache
states observable during _load_public_keys starts at the old mapping
and ends at the final mapping, but passes through the empty and partly
rebuilt dicts in between, as the counterexample exhibits. -/
theorem spec_C8_amended_state_trace (old : Option KeyDict) (resp : CertsResponse) :
    (loadStates old resp).head? = some old
    ∧ (loadStates old resp).getLast? = some (loadFinalState old resp) := by
  constructor
  · cases resp <;> simp [loadStates]
  · cases resp with
    | fetchFailure => simp [loadStates, loadFinalState, load_public_keys]
    | jsonWithoutKeys => simp [loadStates, loadFinalState, load_public_keys]
    | keys entries =>
      show (old :: loadLoopStates [] entries).getLast? = _
      rw [getLast?_cons_of_ne_nil old (loadLoopStates_ne_nil [] entries),
        loadLoopStates_getLast entries [], loadFinalState_keys]

/-- C9: get_current_user decides success by the truthiness of the
decoded payload dict, so an empty payload is rejected with the generic
401 exactly like None, while a non-empty payload is forwarded. -/
theorem spec_C9_truthiness_rejects_empty :
    currentUserFromPayload (some emptyClaims) = Except.error
      { status_code := 401, detail := "Invalid or expired token",
        wwwAuthenticate := some "Bearer" }
    ∧ currentUserFromPayload none = Except.error
      { status_code := 401, detail := "Invalid or expired token",
        wwwAuthenticate := some "Bearer" }
    ∧ currentUserFromPayload (some claimsNoRealmAccess)
        = Except.ok claimsNoRealmAccess :=
  ⟨rfl, rfl, rfl⟩

/-- C10: a claim set with no realm_access entry, or whose realm_access
entry has no roles entry, yields the empty role list, so the check
built by require_role rejects every required role with the 403 naming
it, raising no key-lookup error. -/
theorem spec_C10_missing_role_claims (r : String) (u : ClaimSet)
    (h : u.realm_access = none ∨ ∃ ra, u.realm_access = some ra ∧ ra.roles = none) :
    userRoles u = []
    ∧ require_role r u = Except.error
        { status_code := 403,
          detail := "Required role '" ++ r ++ "' not found",
          wwwAuthenticate := none } := by
  have hur : userRoles u = [] := by
    rcases h with h | ⟨ra, h1, h2⟩
    · simp [userRoles, h]
    · simp [userRoles, h1, h2]
  exact ⟨hur, by simp [require_role, check_role, hur]⟩

/-- Witness for C10 at both shapes: a claim set with no realm_access at
all and one whose realm_access lacks roles. -/
theorem spec_C10_witness :
    (userRoles claimsNoRealmAccess = []
      ∧ require_role "admin" claimsNoRealmAccess = Except.error
          { status_code := 403,
            detail := "Required role '" ++ "admin" ++ "' not found",
            wwwAuthenticate := none })
    ∧ (userRoles claimsRolesMissing = []
      ∧ require_role "admin" claimsRolesMissing = Except.error
          { status_code := 403,
            detail := "Required role '" ++ "admin" ++ "' not found",
            wwwAuthenticate := none }) :=
  ⟨spec_C10_missing_role_claims "admin" claimsNoRealmAccess (Or.inl rfl),
   spec_C10_missing_role_claims "admin" claimsRolesMissing
     (Or.inr ⟨{ roles := none }, rfl, rfl⟩)⟩
